import Mathlib

/-!
Shallow embedding of the cross-context command dispatch subsystem and the
recorder state machine of `src/apps/extension/lib/utils/commands.ts`.

Conventions used throughout:
* TypeScript object literals become Lean structures; the storage collaborator
  (`localStorage` restricted to the single key `whispering-settings`) is a
  small state record.
* Effect-TS semantics are made explicit: `Effect.try` / `Effect.tryPromise`
  route synchronous throws and promise rejections into the *typed* error
  channel, while a throw inside an `Effect.gen` body and a rejection of a
  promise wrapped with `Effect.promise` become *defects* that are NOT caught
  by `Effect.catchAll`.  Outcomes of fallible steps are therefore three-way:
  `ok`, `err` (typed failure) and `defect`.
* Platform collaborators whose implementation lives outside the translated
  file (the live recorder service, the recorder-state store, the tab API and
  cross-context message transport) are modelled as an explicit environment
  record carrying the outcome each call would have; the recorder-state store
  is a persistent string cell, as the spec's data model describes.
-/

/-- The four execution contexts of the extension, from the
`ExecutionContext` union type (commands.ts lines 24-28). -/
inductive ExecutionContext where
  | Popup
  | BackgroundServiceWorker
  | GlobalContentScript
  | WhisperingContentScript
deriving DecidableEq, Repr

/-- The seven command names of the `Commands` record type
(commands.ts lines 139-171). -/
inductive CommandName where
  | openOptionsPage
  | getCurrentTabId
  | getSettings
  | setSettings
  | toggleRecording
  | cancelRecording
  | sendErrorToast
deriving DecidableEq, Repr

/-- The native context of each command: the context `K` for which the command
object defines a `runIn[K]` property (commands.ts lines 139-171). -/
def nativeContext : CommandName → ExecutionContext
  | .openOptionsPage => .BackgroundServiceWorker
  | .getCurrentTabId => .BackgroundServiceWorker
  | .getSettings => .WhisperingContentScript
  | .setSettings => .WhisperingContentScript
  | .toggleRecording => .GlobalContentScript
  | .cancelRecording => .GlobalContentScript
  | .sendErrorToast => .GlobalContentScript

/-- Whether the command object defines an `invokeFrom[ctx]` property, read off
the literal objects (commands.ts lines 173-353): `openOptionsPage` has
`invokeFromGlobalContentScript`; `getSettings` and `setSettings` have
`invokeFromGlobalContentScript`; `toggleRecording` and `cancelRecording` have
`invokeFromBackgroundServiceWorker` and `invokeFromPopup`; `getCurrentTabId`
and `sendErrorToast` define no shim at all. -/
def hasShim : CommandName → ExecutionContext → Bool
  | .openOptionsPage, .GlobalContentScript => true
  | .openOptionsPage, _ => false
  | .getCurrentTabId, _ => false
  | .getSettings, .GlobalContentScript => true
  | .getSettings, _ => false
  | .setSettings, .GlobalContentScript => true
  | .setSettings, _ => false
  | .toggleRecording, .BackgroundServiceWorker => true
  | .toggleRecording, .Popup => true
  | .toggleRecording, _ => false
  | .cancelRecording, .BackgroundServiceWorker => true
  | .cancelRecording, .Popup => true
  | .cancelRecording, _ => false
  | .sendErrorToast, _ => false

/-- What happens when code in context `caller` tries to invoke a command
through the `commands` record (commands.ts lines 367-375).  `runNativeHandler`:
the `runIn[caller]` property exists and is called.  `callShim`: an
`invokeFrom[caller]` property exists and is called.  `missingMethodFault`:
the accessed property is `undefined`, so the call raises a TypeError at call
time (a fault, not a typed error value).  `routingError` exists only so the
spec's error taxonomy is statable; no value of this shape occurs anywhere in
the translated file — the source defines no RoutingError type. -/
inductive InvokeOutcome where
  | runNativeHandler
  | callShim
  | missingMethodFault
  | routingError
deriving DecidableEq, Repr

/-- JavaScript property-access semantics of invoking command `c` from context
`caller` on the `commands` record: the native `runIn` method when the caller
is the native context, the `invokeFrom` shim when that property is defined,
and otherwise a call of `undefined`, i.e. a missing-method fault. -/
def invoke (c : CommandName) (caller : ExecutionContext) : InvokeOutcome :=
  if caller = nativeContext c then .runNativeHandler
  else if hasShim c caller then .callShim
  else .missingMethodFault

/-- The persisted settings document, from `settingsSchema`
(commands.ts lines 202-211): a flat record of booleans and strings. -/
structure Settings where
  isPlaySoundEnabled : Bool
  isCopyToClipboardEnabled : Bool
  isPasteContentsOnSuccessEnabled : Bool
  selectedAudioInputDeviceId : String
  currentLocalShortcut : String
  currentGlobalShortcut : String
  apiKey : String
  outputLanguage : String
deriving DecidableEq, Repr

/-- The `defaultValue` document passed by `getSettings` to `getLocalStorage`
(commands.ts lines 219-228). -/
def defaultSettings : Settings :=
  { isPlaySoundEnabled := true
    isCopyToClipboardEnabled := true
    isPasteContentsOnSuccessEnabled := true
    selectedAudioInputDeviceId := ""
    currentLocalShortcut := "space"
    currentGlobalShortcut := ""
    apiKey := ""
    outputLanguage := "en" }

/-- Content stored under the `whispering-settings` key.  A value written by
`setSettings` is `JSON.stringify` of a valid document; for such strings
`JSON.parse` followed by `settingsSchema.parse` restores the document exactly,
so a parsable-and-valid string is modelled by the document it denotes
(`doc`), and any string on which `JSON.parse` or `schema.parse` throws is
modelled by `corrupt`. -/
inductive StoredValue where
  | doc (s : Settings)
  | corrupt
deriving DecidableEq, Repr

/-- The state of `localStorage` at the `whispering-settings` key, together
with flags saying whether the next `getItem` / `setItem` call throws (a
storage read or write error raised by the platform). -/
structure LocalStorage where
  settingsItem : Option StoredValue
  readFails : Bool
  writeFails : Bool
deriving DecidableEq, Repr

/-- Result of an effect with a typed error channel, before any `catchAll`. -/
inductive TryResult (α : Type) where
  | ok (a : α)
  | err
deriving DecidableEq, Repr

/-- The `Effect.try` body of `getLocalStorage` (commands.ts lines 386-397):
`getItem` throwing, or `JSON.parse` / `schema.parse` throwing on a corrupt
value, is caught by `Effect.try` into the typed error channel
(`InvokeCommandError`); a missing key returns the default; a stored valid
document parses to itself. -/
def getLocalStorageTry (st : LocalStorage) (defaultValue : Settings) : TryResult Settings :=
  if st.readFails then .err
  else
    match st.settingsItem with
    | none => .ok defaultValue
    | some (.doc s) => .ok s
    | some .corrupt => .err

/-- `getLocalStorage` (commands.ts lines 377-398): the `Effect.try` block
piped through `Effect.catchAll(() => Effect.succeed(defaultValue))`, which
converts every typed failure into the default document. -/
def getLocalStorage (st : LocalStorage) (defaultValue : Settings) : TryResult Settings :=
  match getLocalStorageTry st defaultValue with
  | .err => .ok defaultValue
  | r => r

/-- The native `getSettings` handler, `runInWhisperingContentScript`
(commands.ts lines 214-229): `getLocalStorage` at key `whispering-settings`
with the fixed default document. -/
def getSettings (st : LocalStorage) : TryResult Settings :=
  getLocalStorage st defaultSettings

/-- Three-way outcome of a fallible platform step, as Effect-TS sees it:
success, a typed failure in the error channel, or a defect (a synchronous
throw inside a generator body or a rejection under `Effect.promise`), which
`Effect.catchAll` does not intercept. -/
inductive Outcome where
  | ok
  | err
  | defect
deriving DecidableEq, Repr

/-- `setLocalStorage` (commands.ts lines 400-408) specialised to the
`whispering-settings` key: `Effect.try` around `localStorage.setItem`; a
throw becomes a typed failure and leaves storage unchanged, otherwise the
stringified document replaces the stored value wholesale. -/
def setLocalStorage (st : LocalStorage) (value : Settings) : Outcome × LocalStorage :=
  if st.writeFails then (.err, st)
  else (.ok, { st with settingsItem := some (.doc value) })

/-- The native `setSettings` handler, `runInWhisperingContentScript`
(commands.ts lines 237-242): `setLocalStorage` of `JSON.stringify(settings)`
at key `whispering-settings`. -/
def setSettings (settings : Settings) (st : LocalStorage) : Outcome × LocalStorage :=
  setLocalStorage st settings

/-- The settings document an invocation of `getSettings` observes on storage
`st` (the handler never fails, so its success value is total in `st`). -/
def settingsValue (st : LocalStorage) : Settings :=
  match getSettings st with
  | .ok s => s
  | .err => defaultSettings

/-- The audio feedback cues (commands.ts lines 15-17). -/
inductive Cue where
  | start
  | stop
  | cancel
deriving DecidableEq, Repr

/-- Environment for one invocation of a recorder command: the storage behind
the remote `getSettings` / `setSettings` handlers, the string held by the
recorder-state store, and the outcome each platform collaborator call would
have.  `recorderState` is what `recorderStateService.get()` yields when it
succeeds; `devices` is the device-id list `enumerateRecordingDevices` yields
when it succeeds.  The collaborators themselves (RecorderServiceLive,
RecorderStateLive, the message transport) live outside the translated file;
per the spec's data model the state store is a persistent cell read and
written only by the recorder commands. -/
structure RecorderEnv where
  storage : LocalStorage
  recorderState : String
  stateGet : Outcome
  stateSet : Outcome
  getSettingsRemote : Outcome
  setSettingsRemote : Outcome
  enumerateResult : Outcome
  devices : List String
  startResult : Outcome
  stopResult : Outcome
  cancelResult : Outcome
  openOptionsResult : Outcome
deriving DecidableEq, Repr

/-- Result of a cross-context invocation that carries a value. -/
inductive Invoked (α : Type) where
  | ok (a : α)
  | err
  | defect
deriving DecidableEq, Repr

/-- `getSettings.invokeFromGlobalContentScript()` (commands.ts lines
230-234): the round trip through the Whispering tab; on a successful round
trip the value is what the native handler returns on the current storage
(a native-handler failure would travel back to the caller). -/
def getSettingsInvokeFromGlobalContentScript (env : RecorderEnv) : Invoked Settings :=
  match env.getSettingsRemote with
  | .err => .err
  | .defect => .defect
  | .ok =>
    match getSettings env.storage with
    | .ok s => .ok s
    | .err => .err

/-- `setSettings.invokeFromGlobalContentScript(settings)` (commands.ts lines
243-247): the round trip through the Whispering tab; on a successful round
trip the native handler runs `setLocalStorage` on the current storage. -/
def setSettingsInvokeFromGlobalContentScript (env : RecorderEnv) (st : LocalStorage)
    (settings : Settings) : Outcome × LocalStorage :=
  match env.setSettingsRemote with
  | .err => (.err, st)
  | .defect => (.defect, st)
  | .ok => setLocalStorage st settings

/-- The generator body of `checkAndUpdateSelectedAudioInputDevice`
(commands.ts lines 253-268), before the `catchAll`: fetch the settings,
enumerate the recording devices, and if the selected device id is absent,
re-fetch the settings and persist a copy whose selected id is
`recordingDevices[0].deviceId`.  When the enumeration is empty that index
access is on `undefined` and throws inside the generator, which Effect
records as a defect, not a typed failure. -/
def checkAndUpdateSelectedAudioInputDeviceBody (env : RecorderEnv) : Outcome × LocalStorage :=
  match getSettingsInvokeFromGlobalContentScript env with
  | .err => (.err, env.storage)
  | .defect => (.defect, env.storage)
  | .ok settings =>
    match env.enumerateResult with
    | .err => (.err, env.storage)
    | .defect => (.defect, env.storage)
    | .ok =>
      let recordingDevices := env.devices
      let isSelectedDeviceExists :=
        recordingDevices.contains settings.selectedAudioInputDeviceId
      if isSelectedDeviceExists then (.ok, env.storage)
      else
        match recordingDevices with
        | [] => (.defect, env.storage)
        | firstAudioInput :: _ =>
          match getSettingsInvokeFromGlobalContentScript env with
          | .err => (.err, env.storage)
          | .defect => (.defect, env.storage)
          | .ok oldSettings =>
            setSettingsInvokeFromGlobalContentScript env env.storage
              { oldSettings with selectedAudioInputDeviceId := firstAudioInput }

/-- `checkAndUpdateSelectedAudioInputDevice` (commands.ts lines 253-274): the
body piped through `Effect.catchAll(() => Effect.succeed(undefined))`, which
discards typed failures; defects pass through uncaught. -/
def checkAndUpdateSelectedAudioInputDevice (env : RecorderEnv) : Outcome × LocalStorage :=
  match checkAndUpdateSelectedAudioInputDeviceBody env with
  | (.err, st) => (.ok, st)
  | r => r

/-- The shape of the `settings` object literal bound at commands.ts line 277. -/
structure ToggleSettings where
  apiKey : String
  selectedAudioInputDeviceId : String
  isPlaySoundEnabled : Bool
deriving DecidableEq, Repr

/-- The literal bound to `settings` inside `toggleRecording`
(commands.ts line 277):
`{ apiKey: '', selectedAudioInputDeviceId: '', isPlaySoundEnabled: true }`. -/
def hardcodedToggleSettings : ToggleSettings :=
  { apiKey := "", selectedAudioInputDeviceId := "", isPlaySoundEnabled := true }

/-- Everything observable about one `toggleRecording` invocation: the result
of the returned effect, the recorder-state store and settings storage
afterwards, the cues played, the `alert` calls, the `openOptionsPage`
invocations, the capture start/stop attempts, and the log lines emitted. -/
structure ToggleOutcome where
  result : Outcome
  finalState : String
  storage : LocalStorage
  cues : List Cue
  alerts : Nat
  openOptionsCalls : Nat
  startCalls : Nat
  stopCalls : Nat
  logs : List String
deriving DecidableEq, Repr

/-- The native `toggleRecording` handler, `runInGlobalContentScript`
(commands.ts lines 250-306).  Line 277 binds `settings` to the hardcoded
literal; line 278 tests `!settings.apiKey` (for strings, falsy means empty),
and on the empty key alerts, invokes `openOptionsPage` from the global
content script and returns.  Otherwise it runs the device-fallback,
reads the recorder state and switches: `IDLE` starts capture, plays the
start cue when enabled, logs and commits `RECORDING`; `RECORDING` stops
capture, plays the stop cue when enabled, logs and commits `IDLE`; any other
value only logs `Invalid recorder state`.  A failing step ends the effect
with that step's outcome, leaving the stored state as it was. -/
def toggleRecording (env : RecorderEnv) : ToggleOutcome :=
  let settings := hardcodedToggleSettings
  if settings.apiKey = "" then
    { result := env.openOptionsResult, finalState := env.recorderState,
      storage := env.storage, cues := [], alerts := 1, openOptionsCalls := 1,
      startCalls := 0, stopCalls := 0, logs := [] }
  else
    match checkAndUpdateSelectedAudioInputDevice env with
    | (.defect, storage1) =>
      { result := .defect, finalState := env.recorderState, storage := storage1,
        cues := [], alerts := 0, openOptionsCalls := 0,
        startCalls := 0, stopCalls := 0, logs := [] }
    | (_, storage1) =>
      match env.stateGet with
      | .err =>
        { result := .err, finalState := env.recorderState, storage := storage1,
          cues := [], alerts := 0, openOptionsCalls := 0,
          startCalls := 0, stopCalls := 0, logs := [] }
      | .defect =>
        { result := .defect, finalState := env.recorderState, storage := storage1,
          cues := [], alerts := 0, openOptionsCalls := 0,
          startCalls := 0, stopCalls := 0, logs := [] }
      | .ok =>
        if env.recorderState = "IDLE" then
          match env.startResult with
          | .ok =>
            let cues := if settings.isPlaySoundEnabled then [Cue.start] else []
            match env.stateSet with
            | .ok =>
              { result := .ok, finalState := "RECORDING", storage := storage1,
                cues := cues, alerts := 0, openOptionsCalls := 0,
                startCalls := 1, stopCalls := 0, logs := ["Recording started"] }
            | bad =>
              { result := bad, finalState := env.recorderState, storage := storage1,
                cues := cues, alerts := 0, openOptionsCalls := 0,
                startCalls := 1, stopCalls := 0, logs := ["Recording started"] }
          | bad =>
            { result := bad, finalState := env.recorderState, storage := storage1,
              cues := [], alerts := 0, openOptionsCalls := 0,
              startCalls := 1, stopCalls := 0, logs := [] }
        else if env.recorderState = "RECORDING" then
          match env.stopResult with
          | .ok =>
            let cues := if settings.isPlaySoundEnabled then [Cue.stop] else []
            match env.stateSet with
            | .ok =>
              { result := .ok, finalState := "IDLE", storage := storage1,
                cues := cues, alerts := 0, openOptionsCalls := 0,
                startCalls := 0, stopCalls := 1, logs := ["Recording stopped"] }
            | bad =>
              { result := bad, finalState := env.recorderState, storage := storage1,
                cues := cues, alerts := 0, openOptionsCalls := 0,
                startCalls := 0, stopCalls := 1, logs := ["Recording stopped"] }
          | bad =>
            { result := bad, finalState := env.recorderState, storage := storage1,
              cues := [], alerts := 0, openOptionsCalls := 0,
              startCalls := 0, stopCalls := 1, logs := [] }
        else
          { result := .ok, finalState := env.recorderState, storage := storage1,
            cues := [], alerts := 0, openOptionsCalls := 0,
            startCalls := 0, stopCalls := 0, logs := ["Invalid recorder state"] }

/-- Everything observable about one `cancelRecording` invocation. -/
structure CancelOutcome where
  result : Outcome
  finalState : String
  cues : List Cue
  logs : List String
  cancelCalls : Nat
deriving DecidableEq, Repr

/-- The native `cancelRecording` handler, `runInGlobalContentScript`
(commands.ts lines 319-330): fetch the settings across contexts, read the
recorder state, unconditionally request cancellation, play the cancel cue
only when the prior state was `RECORDING` and feedback is enabled, log,
and commit `IDLE`.  A failing step ends the effect with that step's outcome,
leaving the stored state as it was. -/
def cancelRecording (env : RecorderEnv) : CancelOutcome :=
  match getSettingsInvokeFromGlobalContentScript env with
  | .err => { result := .err, finalState := env.recorderState, cues := [], logs := [], cancelCalls := 0 }
  | .defect => { result := .defect, finalState := env.recorderState, cues := [], logs := [], cancelCalls := 0 }
  | .ok settings =>
    match env.stateGet with
    | .err => { result := .err, finalState := env.recorderState, cues := [], logs := [], cancelCalls := 0 }
    | .defect => { result := .defect, finalState := env.recorderState, cues := [], logs := [], cancelCalls := 0 }
    | .ok =>
      let recorderState := env.recorderState
      match env.cancelResult with
      | .err => { result := .err, finalState := env.recorderState, cues := [], logs := [], cancelCalls := 1 }
      | .defect => { result := .defect, finalState := env.recorderState, cues := [], logs := [], cancelCalls := 1 }
      | .ok =>
        let cues := if recorderState == "RECORDING" && settings.isPlaySoundEnabled
          then [Cue.cancel] else []
        match env.stateSet with
        | .ok =>
          { result := .ok, finalState := "IDLE", cues := cues,
            logs := ["Recording cancelled"], cancelCalls := 1 }
        | bad =>
          { result := bad, finalState := env.recorderState, cues := cues,
            logs := ["Recording cancelled"], cancelCalls := 1 }

/-- A browser tab as the locator sees it: its id (which the platform may
leave undefined), whether it is pinned, whether it is focused (`active`) and
whether its URL matches the query pattern `http://localhost:5173/*`. -/
structure Tab where
  id : Option Nat
  pinned : Bool
  active : Bool
  matchesWhisperingUrl : Bool
deriving DecidableEq, Repr

/-- The browser tab environment: the open tabs, and the id the platform will
assign to the next created tab. -/
structure TabState where
  tabs : List Tab
  nextId : Nat
deriving DecidableEq, Repr

/-- `Option.fromNullable` piped through `Effect.mapError` into
`InvokeCommandError` (commands.ts lines 429-434): a present id succeeds,
an undefined id becomes the typed locator error. -/
def optionToResult : Option Nat → Except Unit Nat
  | some n => .ok n
  | none => .error ()

/-- The tab `chrome.tabs.create({ url, active: false, pinned: true })`
produces (commands.ts lines 420-426), modelled as carrying the platform's
next fresh id `n`; its URL `http://localhost:5173` matches the query
pattern. -/
def createdWhisperingTab (n : Nat) : Tab :=
  { id := some n, pinned := true, active := false, matchesWhisperingUrl := true }

/-- `getOrCreateWhisperingTabId` (commands.ts lines 410-434): query the open
tabs for the canonical URL pattern; when matches exist, return the id of the
first pinned match, else the first match's id; when none exist, create a new
pinned, non-focusing tab at the canonical URL and return its id.  The
resulting id flows through `Option.fromNullable`, so a missing id is the
typed error. -/
def getOrCreateWhisperingTabId (st : TabState) : Except Unit Nat × TabState :=
  match st.tabs.filter (fun t => t.matchesWhisperingUrl) with
  | [] =>
    let newTab : Tab := createdWhisperingTab st.nextId
    (optionToResult newTab.id, { tabs := st.tabs ++ [newTab], nextId := st.nextId + 1 })
  | t :: ts =>
    match (t :: ts).find? (fun tab => tab.pinned) with
    | some pinnedTab => (optionToResult pinnedTab.id, st)
    | none => (optionToResult t.id, st)

/-- A storage holding a valid stored document `s`, with well-behaved reads
and writes. -/
def storageWith (s : Settings) : LocalStorage :=
  { settingsItem := some (.doc s), readFails := false, writeFails := false }

/-- A recorder environment in which every collaborator succeeds, the stored
settings are the defaults, the stored recorder state is `IDLE` and one input
device `d0` is available. -/
def envOk : RecorderEnv :=
  { storage := storageWith defaultSettings
    recorderState := "IDLE"
    stateGet := .ok
    stateSet := .ok
    getSettingsRemote := .ok
    setSettingsRemote := .ok
    enumerateResult := .ok
    devices := ["d0"]
    startResult := .ok
    stopResult := .ok
    cancelResult := .ok
    openOptionsResult := .ok }

/-- An environment identical to `envOk` except that starting capture would
fail with a typed recorder error. -/
def envStartFail : RecorderEnv := { envOk with startResult := .err }

/-- An environment identical to `envOk` except that the recorder-state store
holds the out-of-range value `LOADING`. -/
def envInvalidState : RecorderEnv := { envOk with recorderState := "LOADING" }

/-- A settings document whose selected input device id `missing` does not
occur in `envOk`'s enumerated device list `["d0"]`. -/
def settingsMissingDevice : Settings :=
  { defaultSettings with selectedAudioInputDeviceId := "missing" }

/-- An environment identical to `envOk` except that the persisted selected
device id is absent from the enumerated device list. -/
def envMissingDevice : RecorderEnv := { envOk with storage := storageWith settingsMissingDevice }

/-- A storage with no value under the settings key. -/
def emptyStorage : LocalStorage :=
  { settingsItem := none, readFails := false, writeFails := false }

/-- A storage holding an unparsable value under the settings key. -/
def corruptStorage : LocalStorage :=
  { settingsItem := some .corrupt, readFails := false, writeFails := false }

/-- Claim C1: the claim says that from stored state `IDLE` an invocation of
`toggleRecording` ends with stored state `RECORDING`.  At the failing input —
stored state `IDLE` with every collaborator succeeding — the code instead
leaves the state `IDLE`, never attempts to start capture, and invokes the
open-configuration command: the `settings` literal hardcoded at line 277
has an empty `apiKey`, so the credential guard aborts every invocation
before the state machine is reached. -/
theorem toggleRecording_guard_blocks_idle_transition :
    envOk.recorderState = "IDLE" ∧
    (toggleRecording envOk).finalState = "IDLE" ∧
    (toggleRecording envOk).startCalls = 0 ∧
    (toggleRecording envOk).openOptionsCalls = 1 ∧
    (toggleRecording envOk).result = Outcome.ok := by decide

/-- Claim C2, counterexample: with every collaborator succeeding and no
credential configured (the hardcoded `apiKey` is empty), the invocation
completes successfully — its result is neither a typed error nor a defect —
refuting the claim that the result is a `ConfigurationError`. -/
theorem toggleRecording_no_credential_result_is_success :
    hardcodedToggleSettings.apiKey = "" ∧
    (toggleRecording envOk).result = Outcome.ok ∧
    ¬ (toggleRecording envOk).result = Outcome.err ∧
    ¬ (toggleRecording envOk).result = Outcome.defect := by decide

/-- Claim C2, amended: when no credential is configured (always, since the
credential is read from the hardcoded literal), `toggleRecording` surfaces a
configuration prompt (one `alert`), performs no state mutation, invokes the
open-configuration command exactly once, plays no cue, never touches capture,
and completes successfully — no typed `ConfigurationError` value exists. -/
theorem toggleRecording_no_credential_behaviour (env : RecorderEnv)
    (h : env.openOptionsResult = Outcome.ok) :
    (toggleRecording env).result = Outcome.ok ∧
    (toggleRecording env).finalState = env.recorderState ∧
    (toggleRecording env).storage = env.storage ∧
    (toggleRecording env).alerts = 1 ∧
    (toggleRecording env).openOptionsCalls = 1 ∧
    (toggleRecording env).cues = [] ∧
    (toggleRecording env).startCalls = 0 ∧
    (toggleRecording env).stopCalls = 0 := by
  simp [toggleRecording, hardcodedToggleSettings, h]

/-- Witness for `toggleRecording_no_credential_behaviour` at `envOk`. -/
theorem toggleRecording_no_credential_behaviour_witness :
    envOk.openOptionsResult = Outcome.ok ∧
    ((toggleRecording envOk).result = Outcome.ok ∧
     (toggleRecording envOk).finalState = envOk.recorderState ∧
     (toggleRecording envOk).storage = envOk.storage ∧
     (toggleRecording envOk).alerts = 1 ∧
     (toggleRecording envOk).openOptionsCalls = 1 ∧
     (toggleRecording envOk).cues = [] ∧
     (toggleRecording envOk).startCalls = 0 ∧
     (toggleRecording envOk).stopCalls = 0) :=
  ⟨rfl, toggleRecording_no_credential_behaviour envOk rfl⟩

/-- Claim C4: the claim says that after one toggle attempt with a persisted
device id absent from the enumerated list, the persisted id equals the first
enumerated device's id.  At the failing input — persisted id `missing`,
enumerated devices `["d0"]`, every collaborator succeeding — the persisted
id is still `missing` after the invocation: the device-fallback sub-routine
is never executed, because the hardcoded empty `apiKey` aborts every
invocation at the credential guard first. -/
theorem toggleRecording_device_fallback_never_persists :
    settingsValue envMissingDevice.storage = settingsMissingDevice ∧
    settingsMissingDevice.selectedAudioInputDeviceId = "missing" ∧
    envMissingDevice.devices = ["d0"] ∧
    envMissingDevice.devices.contains
      settingsMissingDevice.selectedAudioInputDeviceId = false ∧
    (toggleRecording envMissingDevice).storage = envMissingDevice.storage ∧
    (settingsValue (toggleRecording envMissingDevice).storage).selectedAudioInputDeviceId
      = "missing" := by decide

/-- Claim C5: the claim says that when capture start fails during an
invocation from stored state `IDLE`, the failure propagates to the caller as
a typed error.  At the failing input — stored state `IDLE` with the capture
start primed to fail — the invocation instead completes successfully and
capture start is never even attempted: the hardcoded empty `apiKey` aborts
every invocation at the credential guard.  (State does stay `IDLE` and no
cue plays, but only because the state machine is unreachable.) -/
theorem toggleRecording_start_failure_not_propagated :
    envStartFail.recorderState = "IDLE" ∧
    envStartFail.startResult = Outcome.err ∧
    (toggleRecording envStartFail).result = Outcome.ok ∧
    (toggleRecording envStartFail).startCalls = 0 ∧
    (toggleRecording envStartFail).finalState = "IDLE" ∧
    (toggleRecording envStartFail).cues = [] := by decide

/-- Claim C9, counterexample: with the out-of-range value `LOADING` in the
recorder-state store, the invocation emits no log line at all — refuting the
claim that the invalid value is logged (the `Invalid recorder state` branch
is unreachable: every invocation aborts at the credential guard). -/
theorem toggleRecording_invalid_state_not_logged :
    envInvalidState.recorderState = "LOADING" ∧
    ¬ envInvalidState.recorderState = "IDLE" ∧
    ¬ envInvalidState.recorderState = "RECORDING" ∧
    (toggleRecording envInvalidState).logs = [] := by decide

/-- Claim C9, amended: when the stored recorder state is neither `IDLE` nor
`RECORDING`, `toggleRecording` performs no capture start or stop, leaves the
stored state unchanged and returns success — the invalid value is never
raised as a fault — but it does not log the invalid value: the invocation
aborts at the credential guard before the state is even inspected. -/
theorem toggleRecording_invalid_state_noop (env : RecorderEnv)
    (h1 : env.recorderState ≠ "IDLE") (h2 : env.recorderState ≠ "RECORDING")
    (h3 : env.openOptionsResult = Outcome.ok) :
    (toggleRecording env).result = Outcome.ok ∧
    (toggleRecording env).startCalls = 0 ∧
    (toggleRecording env).stopCalls = 0 ∧
    (toggleRecording env).finalState = env.recorderState ∧
    (toggleRecording env).logs = [] := by
  simp [toggleRecording, hardcodedToggleSettings, h3]

/-- Witness for `toggleRecording_invalid_state_noop` at `envInvalidState`. -/
theorem toggleRecording_invalid_state_noop_witness :
    (envInvalidState.recorderState ≠ "IDLE" ∧
     envInvalidState.recorderState ≠ "RECORDING" ∧
     envInvalidState.openOptionsResult = Outcome.ok) ∧
    ((toggleRecording envInvalidState).result = Outcome.ok ∧
     (toggleRecording envInvalidState).startCalls = 0 ∧
     (toggleRecording envInvalidState).stopCalls = 0 ∧
     (toggleRecording envInvalidState).finalState = envInvalidState.recorderState ∧
     (toggleRecording envInvalidState).logs = []) :=
  ⟨⟨by decide, by decide, by decide⟩,
   toggleRecording_invalid_state_noop envInvalidState (by decide) (by decide) (by decide)⟩

/-- Claim C3, counterexample: `getCurrentTabId` is native to the background
service worker and defines no shim; invoking it from the popup is a
missing-method fault at call time, not a typed `RoutingError` — no
`RoutingError` value is ever produced by the dispatch layer. -/
theorem invoke_getCurrentTabId_from_popup_is_fault :
    ExecutionContext.Popup ≠ nativeContext CommandName.getCurrentTabId ∧
    hasShim CommandName.getCurrentTabId ExecutionContext.Popup = false ∧
    invoke CommandName.getCurrentTabId ExecutionContext.Popup ≠ InvokeOutcome.routingError ∧
    invoke CommandName.getCurrentTabId ExecutionContext.Popup
      = InvokeOutcome.missingMethodFault := by decide

/-- Claim C3, amended: for every command and caller context that is not the
command's native context and for which no invocation shim is defined,
invoking the command is a missing-method fault at call time (the accessed
`invokeFrom` property is `undefined`); no typed `RoutingError` exists — such
mis-calls are instead excluded statically by the TypeScript types. -/
theorem invoke_no_shim_missing_method_fault (c : CommandName) (ctx : ExecutionContext)
    (h1 : ctx ≠ nativeContext c) (h2 : hasShim c ctx = false) :
    invoke c ctx = InvokeOutcome.missingMethodFault := by
  simp [invoke, h1, h2]

/-- Witness for `invoke_no_shim_missing_method_fault`: `sendErrorToast`
invoked from the Whispering content script. -/
theorem invoke_no_shim_missing_method_fault_witness :
    (ExecutionContext.WhisperingContentScript ≠ nativeContext CommandName.sendErrorToast ∧
     hasShim CommandName.sendErrorToast ExecutionContext.WhisperingContentScript = false) ∧
    invoke CommandName.sendErrorToast ExecutionContext.WhisperingContentScript
      = InvokeOutcome.missingMethodFault :=
  ⟨⟨by decide, by decide⟩,
   invoke_no_shim_missing_method_fault CommandName.sendErrorToast
     ExecutionContext.WhisperingContentScript (by decide) (by decide)⟩

/-- The `catchAll` in `getLocalStorage` eliminates the typed error channel:
the read never fails. -/
theorem getLocalStorage_ne_err (st : LocalStorage) (d : Settings) :
    getLocalStorage st d ≠ TryResult.err := by
  unfold getLocalStorage
  cases getLocalStorageTry st d <;> simp

/-- The native `getSettings` handler always succeeds, with the value
`settingsValue st`. -/
theorem getSettings_eq_ok (st : LocalStorage) :
    getSettings st = TryResult.ok (settingsValue st) := by
  unfold settingsValue
  cases h : getSettings st with
  | ok s => rfl
  | err => exact absurd h (getLocalStorage_ne_err st defaultSettings)

/-- Claim C6: writing a settings document and reading it back returns the
document unchanged (for any document, on a storage whose write and subsequent
read do not throw), and reading against missing or corrupt storage returns
the fixed default document. -/
theorem setSettings_getSettings_roundtrip_and_default :
    (∀ (X : Settings) (st : LocalStorage), st.writeFails = false → st.readFails = false →
      getSettings (setSettings X st).2 = TryResult.ok X) ∧
    (∀ st : LocalStorage,
      st.settingsItem = none ∨ st.settingsItem = some StoredValue.corrupt →
      getSettings st = TryResult.ok defaultSettings) := by
  constructor
  · intro X st hw hr
    simp [setSettings, setLocalStorage, hw, getSettings, getLocalStorage, getLocalStorageTry, hr]
  · intro st h
    cases hrf : st.readFails <;> rcases h with h | h <;>
      simp [getSettings, getLocalStorage, getLocalStorageTry, h, hrf]

/-- Witness for `setSettings_getSettings_roundtrip_and_default`: a concrete
document round-trips through a well-behaved storage, and the empty storage
yields the default document. -/
theorem setSettings_getSettings_roundtrip_and_default_witness :
    getSettings (setSettings settingsMissingDevice emptyStorage).2
      = TryResult.ok settingsMissingDevice ∧
    getSettings emptyStorage = TryResult.ok defaultSettings :=
  ⟨setSettings_getSettings_roundtrip_and_default.1 settingsMissingDevice emptyStorage rfl rfl,
   setSettings_getSettings_roundtrip_and_default.2 emptyStorage (Or.inl rfl)⟩

/-- Claim C10: the native `getSettings` handler is total over its error
channel — for every storage content it succeeds, its declared failure branch
is unreachable, a stored schema-valid document is returned as stored, and a
throwing read, a missing key or a corrupt value all yield the fixed default
document. -/
theorem getSettings_total_over_error_channel :
    (∀ st : LocalStorage, ∃ s, getSettings st = TryResult.ok s) ∧
    (∀ st : LocalStorage, getSettings st ≠ TryResult.err) ∧
    (∀ st : LocalStorage, st.readFails = false →
      ∀ s, st.settingsItem = some (StoredValue.doc s) → getSettings st = TryResult.ok s) ∧
    (∀ st : LocalStorage,
      st.readFails = true ∨ st.settingsItem = none ∨ st.settingsItem = some StoredValue.corrupt →
      getSettings st = TryResult.ok defaultSettings) := by
  refine ⟨fun st => ⟨settingsValue st, getSettings_eq_ok st⟩,
    fun st => getLocalStorage_ne_err st defaultSettings, ?_, ?_⟩
  · intro st hr s hit
    simp [getSettings, getLocalStorage, getLocalStorageTry, hr, hit]
  · intro st h
    rcases h with h | h | h <;> cases hrf : st.readFails <;>
      simp_all [getSettings, getLocalStorage, getLocalStorageTry]

/-- Witness for `getSettings_total_over_error_channel` at the corrupt
storage. -/
theorem getSettings_total_over_error_channel_witness :
    (∃ s, getSettings corruptStorage = TryResult.ok s) ∧
    getSettings corruptStorage ≠ TryResult.err ∧
    getSettings corruptStorage = TryResult.ok defaultSettings :=
  ⟨getSettings_total_over_error_channel.1 corruptStorage,
   getSettings_total_over_error_channel.2.1 corruptStorage,
   getSettings_total_over_error_channel.2.2.2 corruptStorage (Or.inr (Or.inr rfl))⟩

/-- Claim C8: for every prior stored recorder state, a successful
`cancelRecording` invocation requests cancellation, ends with stored state
`IDLE` (idempotently, even when it already was `IDLE`), and plays the cancel
cue exactly when the prior state was `RECORDING` and feedback is enabled. -/
theorem cancelRecording_ends_idle_cue_gated (env : RecorderEnv)
    (h1 : env.getSettingsRemote = Outcome.ok) (h2 : env.stateGet = Outcome.ok)
    (h3 : env.cancelResult = Outcome.ok) (h4 : env.stateSet = Outcome.ok) :
    (cancelRecording env).result = Outcome.ok ∧
    (cancelRecording env).finalState = "IDLE" ∧
    (cancelRecording env).cancelCalls = 1 ∧
    ((cancelRecording env).cues = [Cue.cancel] ↔
      env.recorderState = "RECORDING" ∧
        (settingsValue env.storage).isPlaySoundEnabled = true) ∧
    (env.recorderState ≠ "RECORDING" → (cancelRecording env).cues = []) := by
  have hg := getSettings_eq_ok env.storage
  by_cases hrec : env.recorderState = "RECORDING"
  · by_cases hsnd : (settingsValue env.storage).isPlaySoundEnabled = true
    · simp [cancelRecording, getSettingsInvokeFromGlobalContentScript,
        h1, h2, h3, h4, hg, hrec, hsnd]
    · rw [Bool.not_eq_true] at hsnd
      simp [cancelRecording, getSettingsInvokeFromGlobalContentScript,
        h1, h2, h3, h4, hg, hrec, hsnd]
  · have hb : (env.recorderState == "RECORDING") = false := by
      simp [hrec]
    simp [cancelRecording, getSettingsInvokeFromGlobalContentScript,
      h1, h2, h3, h4, hg, hb, hrec]

/-- Witness for `cancelRecording_ends_idle_cue_gated` in a recording
environment with feedback enabled. -/
theorem cancelRecording_ends_idle_cue_gated_witness :
    ((cancelRecording { envOk with recorderState := "RECORDING" }).result = Outcome.ok ∧
     (cancelRecording { envOk with recorderState := "RECORDING" }).finalState = "IDLE" ∧
     (cancelRecording { envOk with recorderState := "RECORDING" }).cancelCalls = 1 ∧
     ((cancelRecording { envOk with recorderState := "RECORDING" }).cues = [Cue.cancel] ↔
       ({ envOk with recorderState := "RECORDING" } : RecorderEnv).recorderState = "RECORDING" ∧
         (settingsValue ({ envOk with recorderState := "RECORDING" } : RecorderEnv).storage).isPlaySoundEnabled = true) ∧
     (({ envOk with recorderState := "RECORDING" } : RecorderEnv).recorderState ≠ "RECORDING" →
       (cancelRecording { envOk with recorderState := "RECORDING" }).cues = [])) :=
  cancelRecording_ends_idle_cue_gated { envOk with recorderState := "RECORDING" } rfl rfl rfl rfl

/-- A list whose filtrate is a singleton has that element as its first
match. -/
theorem find?_of_filter_eq_singleton {α : Type} (p : α → Bool) :
    ∀ (l : List α) (t : α), l.filter p = [t] → l.find? p = some t := by
  intro l
  induction l with
  | nil => intro t h; simp at h
  | cons a l ih =>
    intro t h
    by_cases hp : p a
    · rw [List.filter_cons_of_pos hp] at h
      simp only [List.cons.injEq] at h
      rw [List.find?_cons_of_pos l hp, h.1]
    · rw [List.filter_cons_of_neg hp] at h
      rw [List.find?_cons_of_neg l hp]
      exact ih t h

/-- After the locator creates the Whispering tab in an environment with no
matching tab, running it again on the resulting environment finds the
created pinned tab and returns the same id without further creation. -/
theorem whisperingTab_rediscover (st : TabState)
    (h : st.tabs.filter (fun tb => tb.matchesWhisperingUrl) = []) :
    getOrCreateWhisperingTabId ((getOrCreateWhisperingTabId st).2) =
      (Except.ok st.nextId, (getOrCreateWhisperingTabId st).2) := by
  have hsnd : (getOrCreateWhisperingTabId st).2 =
      { tabs := st.tabs ++ [createdWhisperingTab st.nextId], nextId := st.nextId + 1 } := by
    simp [getOrCreateWhisperingTabId, h]
  rw [hsnd]
  simp [getOrCreateWhisperingTabId, List.filter_append, h, List.find?, optionToResult,
    createdWhisperingTab]

/-- Claim C7: the peer locator resolution order is pinned, then first found,
then create new.  First part: when the matching tabs contain exactly one
pinned tab carrying an id, the locator returns that id and changes nothing.
Second part: when no matching tab exists, one call creates exactly one new
pinned, non-focusing tab and returns its id, and a subsequent call returns
the same id on the unchanged environment.  Third part: the locator is
idempotent — re-running it after any successful call returns the same id and
leaves the environment unchanged. -/
theorem getOrCreateWhisperingTabId_pinned_create_idempotent :
    (∀ (st : TabState) (t : Tab) (n : Nat),
      (st.tabs.filter (fun tb => tb.matchesWhisperingUrl)).filter (fun tb => tb.pinned)
        = [t] →
      t.id = some n →
      getOrCreateWhisperingTabId st = (Except.ok n, st)) ∧
    (∀ st : TabState, st.tabs.filter (fun tb => tb.matchesWhisperingUrl) = [] →
      (getOrCreateWhisperingTabId st).1 = Except.ok st.nextId ∧
      (getOrCreateWhisperingTabId st).2.tabs = st.tabs ++ [createdWhisperingTab st.nextId] ∧
      (createdWhisperingTab st.nextId).pinned = true ∧
      (createdWhisperingTab st.nextId).active = false ∧
      getOrCreateWhisperingTabId ((getOrCreateWhisperingTabId st).2) =
        (Except.ok st.nextId, (getOrCreateWhisperingTabId st).2)) ∧
    (∀ (st : TabState) (n : Nat) (st' : TabState),
      getOrCreateWhisperingTabId st = (Except.ok n, st') →
      getOrCreateWhisperingTabId st' = (Except.ok n, st')) := by
  refine ⟨?_, ?_, ?_⟩
  · intro st t n hft hid
    cases hfil : st.tabs.filter (fun tb => tb.matchesWhisperingUrl) with
    | nil => rw [hfil] at hft; simp at hft
    | cons t0 ts =>
      rw [hfil] at hft
      have hfind := find?_of_filter_eq_singleton (fun tb => tb.pinned) (t0 :: ts) t hft
      simp [getOrCreateWhisperingTabId, hfil, hfind, hid, optionToResult]
  · intro st h
    refine ⟨?_, ?_, rfl, rfl, whisperingTab_rediscover st h⟩
    · simp [getOrCreateWhisperingTabId, h, optionToResult, createdWhisperingTab]
    · simp [getOrCreateWhisperingTabId, h]
  · intro st n st' h
    cases hfil : st.tabs.filter (fun tb => tb.matchesWhisperingUrl) with
    | nil =>
      have hn : n = st.nextId := by
        have h1 := congrArg Prod.fst h
        simp [getOrCreateWhisperingTabId, hfil, optionToResult, createdWhisperingTab] at h1
        exact h1.symm
      have h2 : (getOrCreateWhisperingTabId st).2 = st' := congrArg Prod.snd h
      rw [← h2, hn]
      exact whisperingTab_rediscover st hfil
    | cons t0 ts =>
      have hsnd : (getOrCreateWhisperingTabId st).2 = st := by
        cases hfd : (t0 :: ts).find? (fun tab => tab.pinned) <;>
          simp [getOrCreateWhisperingTabId, hfil, hfd]
      have hpair : (getOrCreateWhisperingTabId st).2 = st' := congrArg Prod.snd h
      have hst : st' = st := by rw [← hpair]; exact hsnd
      rw [hst] at h ⊢
      exact h

/-- Two tab fixtures: an unpinned focused tab with id 3 and a pinned
background tab with id 7, both at the canonical URL. -/
def tabUnpinned : Tab :=
  { id := some 3, pinned := false, active := true, matchesWhisperingUrl := true }

/-- The pinned fixture tab. -/
def tabPinned : Tab :=
  { id := some 7, pinned := true, active := false, matchesWhisperingUrl := true }

/-- A tab environment with the two fixture tabs, exactly one of them
pinned. -/
def stTwoTabs : TabState := { tabs := [tabUnpinned, tabPinned], nextId := 100 }

/-- A tab environment with no tabs at all. -/
def stNoTabs : TabState := { tabs := [], nextId := 41 }

/-- Witness for `getOrCreateWhisperingTabId_pinned_create_idempotent` at the
two fixture environments. -/
theorem getOrCreateWhisperingTabId_pinned_create_idempotent_witness :
    ((stTwoTabs.tabs.filter (fun tb => tb.matchesWhisperingUrl)).filter (fun tb => tb.pinned)
        = [tabPinned] ∧
      tabPinned.id = some 7 ∧
      getOrCreateWhisperingTabId stTwoTabs = (Except.ok 7, stTwoTabs)) ∧
    (stNoTabs.tabs.filter (fun tb => tb.matchesWhisperingUrl) = [] ∧
      (getOrCreateWhisperingTabId stNoTabs).1 = Except.ok stNoTabs.nextId ∧
      getOrCreateWhisperingTabId ((getOrCreateWhisperingTabId stNoTabs).2) =
        (Except.ok stNoTabs.nextId, (getOrCreateWhisperingTabId stNoTabs).2)) :=
  ⟨⟨by decide, by decide,
    getOrCreateWhisperingTabId_pinned_create_idempotent.1 stTwoTabs tabPinned 7
      (by decide) (by decide)⟩,
   ⟨by decide,
    (getOrCreateWhisperingTabId_pinned_create_idempotent.2.1 stNoTabs (by decide)).1,
    (getOrCreateWhisperingTabId_pinned_create_idempotent.2.1 stNoTabs (by decide)).2.2.2.2⟩⟩
